import Mathlib

/-!
Shallow embedding of the device/camera synchronization and liveness-reconciliation
subsystem of the virtue-local-admin-dashboard backend.

Persisted SQLAlchemy rows become Lean structures; the wire-level JSON dictionaries
become structures of `Option String` fields (a missing key is `none`, mirroring
Python's `dict.get`); each HTTP call a function performs is replaced by an explicit
argument describing the outcome of that call (transport error, or a reply with a
status code and an optionally parseable body).  Timestamps are abstract `Nat`
values passed in as `now`.  The SQLAlchemy autoincrement primary key of the
streamers table is an explicit `next_id` counter threaded through the sync pass.
-/

namespace VirtueDashboard

/-- Persisted row of the `streamers` table (models/streamer.py). -/
structure StreamerRow where
  id : Nat
  streamer_uuid : String
  streamer_type : String
  streamer_type_uuid : String
  streamer_hr_name : String
  config_template_name : String
  is_alive : String
  ip_address : Option String
  compute_unit_id : Option Nat
  status : String
  last_seen : Nat
  features : Option (List String)
deriving DecidableEq

/-- Persisted row of the `compute_units` table (models/compute_unit.py). -/
structure ComputeUnitRow where
  id : Nat
  name : String
  ip_address : String
  status : String
  last_seen : Nat
deriving DecidableEq

/-- One entry of the `payload` list returned by the streamer-inventory endpoint.
Fields are `Option String` because the code reads them with `dict.get`. -/
structure CameraData where
  streamer_uuid : Option String
  streamer_hr_name : Option String
  is_alive : Option String
  compute_unit_ip : Option String
deriving DecidableEq

/-- One entry of the `assignments` list returned by the app-assignment endpoint. -/
structure Assignment where
  streamer_uuid : Option String
  app_name : Option String
  app_config_template_name : Option String
  is_active : Option String
deriving DecidableEq

/-- A JSON body that may carry a `payload` list (missing key modeled as `none`). -/
structure PayloadBody where
  payload : Option (List CameraData)
deriving DecidableEq

/-- Outcome of one HTTP GET whose successful body is a `PayloadBody`:
either the request raised at the transport level, or it got a reply with a
status code and a body (`none` when `response.json()` would raise). -/
inductive HttpFetch where
  | transportError : HttpFetch
  | reply (status : Nat) (body : Option PayloadBody) : HttpFetch
deriving DecidableEq

/-- Outcome of the app-assignments HTTP GET. -/
inductive AssignFetch where
  | transportError : AssignFetch
  | reply (status : Nat) (body : Option (List Assignment)) : AssignFetch
deriving DecidableEq

/-- The JSON body a device returns on `GET /ping`: optional `msg` and `status` keys. -/
structure PingBody where
  msg : Option String
  statusField : Option String
deriving DecidableEq

/-- Outcome of the `GET /ping` request issued by `ping_device_detailed`:
`requests` distinguishes connection errors and timeouts from other failures. -/
inductive PingFetch where
  | connectionError : PingFetch
  | timeout : PingFetch
  | otherFailure : PingFetch
  | reply (status : Nat) (body : Option PingBody) : PingFetch
deriving DecidableEq

/-- The result dict built by `ping_device_detailed` (utils/ping.py). -/
structure PingResult where
  reachable : Bool
  response : String
  method : String
deriving DecidableEq

/-- utils/ping.py `ping_device_detailed`: issue `GET /ping` and grant
reachability only when the body's `msg` field is exactly `pong`. -/
def ping_device_detailed (ip_address : String) (fetch : PingFetch) : PingResult :=
  match fetch with
  | .reply statusCode body =>
    if statusCode = 200 then
      match body with
      | some data =>
        { reachable := data.msg = some "pong"
          response := data.msg.getD (data.statusField.getD "Unknown")
          method := "direct_ai_ping" }
      | none =>
        { reachable := false
          response := "Device not found - unable to connect"
          method := "connection_failed" }
    else
      { reachable := false
        response := "Device not found (HTTP " ++ toString statusCode ++ ")"
        method := "direct_ai_ping" }
  | .connectionError =>
    { reachable := false
      response := "Device not found - connection refused"
      method := "connection_refused" }
  | .timeout =>
    { reachable := false
      response := "Device not found - connection timeout"
      method := "connection_timeout" }
  | .otherFailure =>
    { reachable := false
      response := "Device not found - unable to connect"
      method := "connection_failed" }

/-- compute_units.py `_convert_assignments_to_features`: keep assignments whose
`streamer_uuid` matches and whose `is_active` is the exact string `true`, and
emit `app_name ++ "." ++ app_config_template_name` when both are non-empty. -/
def convert_assignments_to_features (streamer_uuid : String) :
    List Assignment → List String
  | [] => []
  | assignment :: rest =>
    if assignment.streamer_uuid = some streamer_uuid ∧
        assignment.is_active = some "true" then
      let app_name := assignment.app_name.getD ""
      let result_name := assignment.app_config_template_name.getD ""
      if app_name ≠ "" ∧ result_name ≠ "" then
        (app_name ++ "." ++ result_name) ::
          convert_assignments_to_features streamer_uuid rest
      else convert_assignments_to_features streamer_uuid rest
    else convert_assignments_to_features streamer_uuid rest

/-- compute_units.py `_fetch_app_assignments`: read the `assignments` list;
every failure (transport, non-200, unparseable body) degrades to `[]`. -/
def fetch_app_assignments (fetch : AssignFetch) : List Assignment :=
  match fetch with
  | .transportError => []
  | .reply statusCode body =>
    if statusCode = 200 then
      match body with
      | some l => l
      | none => []
    else []

/-- The `streamer_uuid` of a payload entry as the sync loop sees it:
`if not streamer_uuid: continue` skips both a missing key and an empty string. -/
def uuidOf (camera_data : CameraData) : Option String :=
  match camera_data.streamer_uuid with
  | none => none
  | some u => if u = "" then none else some u

/-- The field updates applied to a (found or newly created) streamer on every
sync iteration (compute_units.py lines 100-110). -/
def apply_camera_update (unit : ComputeUnitRow) (assignments_data : List Assignment)
    (now : Nat) (camera_data : CameraData) (uuid : String) (s : StreamerRow) :
    StreamerRow :=
  let features := convert_assignments_to_features uuid assignments_data
  { s with
    streamer_hr_name := camera_data.streamer_hr_name.getD s.streamer_hr_name
    status := if camera_data.is_alive = some "1" then "active" else "inactive"
    is_alive := camera_data.is_alive.getD "0"
    ip_address := some unit.ip_address
    compute_unit_id := some unit.id
    last_seen := now
    features := if features.isEmpty then none else some features }

/-- The `Streamer(...)` constructor call for a previously-unseen uuid
(compute_units.py lines 89-96 plus the model defaults of models/streamer.py). -/
def new_streamer (unit : ComputeUnitRow) (now : Nat) (camera_data : CameraData)
    (uuid : String) (fid : Nat) : StreamerRow :=
  { id := fid
    streamer_uuid := uuid
    streamer_type := "camera"
    streamer_type_uuid := "camera"
    streamer_hr_name := camera_data.streamer_hr_name.getD ("Camera " ++ uuid)
    config_template_name := "default"
    is_alive := "false"
    ip_address := some unit.ip_address
    compute_unit_id := some unit.id
    status := "inactive"
    last_seen := now
    features := none }

/-- Apply `f` to the first row carrying the given uuid, as
`Streamer.query.filter_by(streamer_uuid=...).first()` followed by mutation does. -/
def updateFirst (uuid : String) (f : StreamerRow → StreamerRow) :
    List StreamerRow → List StreamerRow
  | [] => []
  | s :: rest =>
    if s.streamer_uuid = uuid then f s :: rest else s :: updateFirst uuid f rest

/-- The streamers table together with the autoincrement counter for new ids. -/
structure SyncState where
  rows : List StreamerRow
  next_id : Nat
deriving DecidableEq

/-- One iteration of the sync loop: skip entries without a usable uuid, update
the existing row for a known uuid, otherwise create (and then update) a new row. -/
def sync_one_camera (unit : ComputeUnitRow) (assignments_data : List Assignment)
    (now : Nat) (st : SyncState) (camera_data : CameraData) : SyncState :=
  match uuidOf camera_data with
  | none => st
  | some uuid =>
    let upd := apply_camera_update unit assignments_data now camera_data uuid
    if st.rows.any (fun s => s.streamer_uuid = uuid) then
      { st with rows := updateFirst uuid upd st.rows }
    else
      let created := upd (new_streamer unit now camera_data uuid st.next_id)
      { rows := st.rows ++ [created], next_id := st.next_id + 1 }

/-- The full upsert loop of `_sync_cameras_from_unit` over the fetched payload. -/
def sync_cameras (unit : ComputeUnitRow) (assignments_data : List Assignment)
    (now : Nat) : List CameraData → SyncState → SyncState
  | [], st => st
  | camera_data :: rest, st =>
    sync_cameras unit assignments_data now rest
      (sync_one_camera unit assignments_data now st camera_data)

/-- Result of one `_sync_cameras_from_unit` call: whether it raised, and the
resulting streamers table and compute-unit row. -/
structure SyncOutcome where
  raised : Bool
  st : SyncState
  unit : ComputeUnitRow
deriving DecidableEq

/-- compute_units.py `_sync_cameras_from_unit`: fetch the payload through the
proxy; on HTTP 200 with a parseable body run the upsert loop, fetch assignments
(failure degrading to an empty list), and mark the unit online; a transport
error or unparseable body raises; a non-200 reply silently does nothing. -/
def sync_cameras_from_unit (unit : ComputeUnitRow) (fetch : HttpFetch)
    (afetch : AssignFetch) (now : Nat) (st : SyncState) : SyncOutcome :=
  match fetch with
  | .transportError => { raised := true, st := st, unit := unit }
  | .reply statusCode body =>
    if statusCode = 200 then
      match body with
      | none => { raised := true, st := st, unit := unit }
      | some data =>
        let cameras := data.payload.getD []
        let assignments_data := fetch_app_assignments afetch
        { raised := false
          st := sync_cameras unit assignments_data now cameras st
          unit := { unit with status := "online", last_seen := now } }
    else { raised := false, st := st, unit := unit }

/-- A serialized camera entry of the list-compute-units response (only the
fields the reconciliation subsystem is responsible for). -/
structure CameraView where
  streamer_uuid : String
  name : String
  status : String
  is_alive : String
deriving DecidableEq

/-- A serialized compute unit of the list-compute-units response. -/
structure UnitView where
  id : Nat
  status : String
  cameras : List CameraView
deriving DecidableEq

/-- The per-unit body of `ComputeUnitsResource.get`: snapshot the status, sync
when the unit is online (a raising sync persists status offline), then reload
the owned cameras, overriding status and liveness in the serialized dicts when
the unit object is offline.  Returns the response entry, the persisted unit row
and the persisted streamers table. -/
def list_one_unit (unit : ComputeUnitRow) (fetch : HttpFetch) (afetch : AssignFetch)
    (now : Nat) (st : SyncState) : UnitView × ComputeUnitRow × SyncState :=
  let afterSync :=
    if unit.status = "online" then
      let o := sync_cameras_from_unit unit fetch afetch now st
      if o.raised then ("offline", { unit with status := "offline" }, o.st)
      else (unit.status, o.unit, o.st)
    else (unit.status, unit, st)
  let dictStatus := afterSync.1
  let unit1 := afterSync.2.1
  let st1 := afterSync.2.2
  let owned := st1.rows.filter
    (fun s => s.compute_unit_id = some unit.id ∧ s.streamer_type = "camera")
  let cameras := owned.map (fun s =>
    ({ streamer_uuid := s.streamer_uuid
       name := s.streamer_hr_name
       status := if unit1.status = "offline" then "inactive" else s.status
       is_alive := if unit1.status = "offline" then "0" else s.is_alive } : CameraView))
  ({ id := unit.id, status := dictStatus, cameras := cameras }, unit1, st1)

/-- The whole persisted database: both tables and their autoincrement counters. -/
structure DB where
  units : List ComputeUnitRow
  next_unit_id : Nat
  streamers : List StreamerRow
  next_streamer_id : Nat
deriving DecidableEq

/-- A whitespace character in the sense of Python's `str.strip()`. -/
def isSpaceChar (c : Char) : Bool :=
  c = ' ' ∨ c = '\t' ∨ c = '\n' ∨ c = '\r'

/-- Python's `str.strip()`: drop leading and trailing whitespace. -/
def pyStrip (s : String) : String :=
  String.mk (((s.data.dropWhile isSpaceChar).reverse.dropWhile isSpaceChar).reverse)

/-- The lookup every streamer endpoint performs
(`Streamer.query.filter_by(streamer_uuid=...).first()`). -/
def find_streamer_by_uuid (dbase : DB) (uuid : String) : Option StreamerRow :=
  dbase.streamers.find? (fun s => s.streamer_uuid = uuid)

/-- compute_units.py `ComputeUnitResource.delete`: 404 when the unit id is
unknown; otherwise delete every owned streamer and the unit in one transaction
and answer with the count of deleted streamers; a commit failure rolls the
whole transaction back and answers 500. -/
def delete_compute_unit (dbase : DB) (unit_id : Nat) (commitOk : Bool) :
    DB × Nat × Option Nat :=
  match dbase.units.find? (fun u => u.id = unit_id) with
  | none => (dbase, 404, none)
  | some _ =>
    let owned := dbase.streamers.filter (fun s => s.compute_unit_id = some unit_id)
    if commitOk then
      ({ dbase with
          units := dbase.units.eraseP (fun u => u.id = unit_id)
          streamers := dbase.streamers.filter
            (fun s => ¬ s.compute_unit_id = some unit_id) },
        200, some owned.length)
    else (dbase, 500, none)

/-- compute_units.py `ComputeUnitsResource.post`: strip the address, answer 409
when it is already registered, 400 when the probe does not report reachable,
otherwise persist a new online unit and best-effort sync it (a raising sync is
swallowed and does not undo the add). -/
def add_compute_unit (dbase : DB) (ip_raw : String) (name_opt : Option String)
    (ping : PingFetch) (fetch : HttpFetch) (afetch : AssignFetch) (now : Nat) :
    DB × Nat :=
  let ip := pyStrip ip_raw
  match dbase.units.find? (fun u => u.ip_address = ip) with
  | some _ => (dbase, 409)
  | none =>
    if (ping_device_detailed ip ping).reachable then
      let new_unit : ComputeUnitRow :=
        { id := dbase.next_unit_id
          name := name_opt.getD ("Compute Unit " ++ ip)
          ip_address := ip
          status := "online"
          last_seen := now }
      let db1 : DB := { dbase with
        units := dbase.units ++ [new_unit]
        next_unit_id := dbase.next_unit_id + 1 }
      let o := sync_cameras_from_unit new_unit fetch afetch now
        ⟨db1.streamers, db1.next_streamer_id⟩
      if o.raised then (db1, 201)
      else
        ({ db1 with
            units := db1.units.map (fun u => if u.id = new_unit.id then o.unit else u)
            streamers := o.st.rows
            next_streamer_id := o.st.next_id }, 201)
    else (dbase, 400)

/-- app.py `CamerasResource.get` (the `/get_cameras` proxy reconciliation reads
from): forward the device payload on success (stamping each entry with the
unit's address); reply HTTP 200 with an empty payload on a missing address, a
transport error, a non-200 device status, or an unparseable device body. -/
def get_cameras_proxy (compute_unit_ip : Option String) (device : HttpFetch) :
    Nat × PayloadBody :=
  match compute_unit_ip with
  | none => (200, { payload := some [] })
  | some ip =>
    if ip = "" then (200, { payload := some [] })
    else
      match device with
      | .transportError => (200, { payload := some [] })
      | .reply statusCode body =>
        if statusCode = 200 then
          match body with
          | none => (200, { payload := some [] })
          | some data =>
            match data.payload with
            | none => (200, { payload := none })
            | some l =>
              if l.isEmpty then (200, { payload := some l })
              else
                let stamped := l.map (fun c => { c with compute_unit_ip := some ip })
                (200, { payload := some stamped })
        else (200, { payload := some [] })

/-- The chain of updates a single row with a fixed uuid receives from a payload
list (every matching entry applied in order); used to characterize the sync loop. -/
def matchChain (unit : ComputeUnitRow) (assignments_data : List Assignment)
    (now : Nat) (uuid : String) : List CameraData → StreamerRow → StreamerRow
  | [], r => r
  | c :: rest, r =>
    matchChain unit assignments_data now uuid rest
      (if uuidOf c = some uuid then
        apply_camera_update unit assignments_data now c uuid r
      else r)

/-- The evolution of the display name of a row with a fixed uuid under a payload
list: every matching entry with a reported name overwrites, others pass through. -/
def hrChain (uuid : String) : List CameraData → String → String
  | [], v => v
  | c :: rest, v =>
    hrChain uuid rest
      (if uuidOf c = some uuid then c.streamer_hr_name.getD v else v)

/-- A concrete online compute unit used in closed instances. -/
def cu0 : ComputeUnitRow :=
  { id := 1, name := "Unit A", ip_address := "10.0.0.5",
    status := "online", last_seen := 0 }

/-- A concrete active streamer owned by `cu0`. -/
def sr1 : StreamerRow :=
  { id := 10, streamer_uuid := "cam-1", streamer_type := "camera",
    streamer_type_uuid := "camera", streamer_hr_name := "Cam One",
    config_template_name := "default", is_alive := "1",
    ip_address := some "10.0.0.5", compute_unit_id := some 1,
    status := "active", last_seen := 0, features := none }

/-- A second concrete streamer owned by `cu0`. -/
def sr2 : StreamerRow :=
  { sr1 with id := 11, streamer_uuid := "cam-2", streamer_hr_name := "Cam Two" }

/-- A third concrete streamer owned by `cu0`. -/
def sr3 : StreamerRow :=
  { sr1 with id := 12, streamer_uuid := "cam-3", streamer_hr_name := "Cam Three" }

/-- A concrete database: one unit owning three streamers. -/
def db0 : DB :=
  { units := [cu0], next_unit_id := 2,
    streamers := [sr1, sr2, sr3], next_streamer_id := 20 }

/-- The empty database. -/
def dbEmpty : DB :=
  { units := [], next_unit_id := 1, streamers := [], next_streamer_id := 1 }

/-- A concrete payload entry reporting a previously-unseen alive camera. -/
def camA : CameraData :=
  { streamer_uuid := some "cam-9", streamer_hr_name := some "Cam Nine",
    is_alive := some "1", compute_unit_ip := none }

/-- A concrete payload entry reporting an empty display name for `sr1`. -/
def camEmptyName : CameraData :=
  { streamer_uuid := some "cam-1", streamer_hr_name := some "",
    is_alive := some "1", compute_unit_ip := none }

/-- A concrete payload entry omitting the display name for `sr1`. -/
def camNoName : CameraData :=
  { streamer_uuid := some "cam-1", streamer_hr_name := none,
    is_alive := some "0", compute_unit_ip := none }

/-- A concrete payload entry with the liveness field missing. -/
def camMissingAlive : CameraData :=
  { streamer_uuid := some "cam-7", streamer_hr_name := some "Cam Seven",
    is_alive := none, compute_unit_ip := none }

/-- A concrete payload entry reporting liveness as the string `true`. -/
def camTrueAlive : CameraData :=
  { streamer_uuid := some "cam-8", streamer_hr_name := some "Cam Eight",
    is_alive := some "true", compute_unit_ip := none }

/-! ## Helper lemmas -/

lemma get_cameras_proxy_status (ipo : Option String) (d : HttpFetch) :
    (get_cameras_proxy ipo d).1 = 200 := by
  cases ipo with
  | none => rfl
  | some ip =>
    by_cases hip : ip = ""
    · simp [get_cameras_proxy, hip]
    · cases d with
      | transportError => simp [get_cameras_proxy, hip]
      | reply sc b =>
        by_cases hsc : sc = 200
        · subst hsc
          cases b with
          | none => simp [get_cameras_proxy, hip]
          | some data =>
            cases hpl : data.payload with
            | none => simp [get_cameras_proxy, hip, hpl]
            | some l =>
              by_cases hl : l.isEmpty <;>
                simp [get_cameras_proxy, hip, hpl, hl]
        · simp [get_cameras_proxy, hip, hsc]

lemma eraseP_id_not_mem (i : Nat) :
    ∀ l : List ComputeUnitRow, (l.map (fun u => u.id)).Nodup →
      ∀ u ∈ l.eraseP (fun x => x.id = i), u.id ≠ i := by
  intro l
  induction l with
  | nil => intro _ u hu; simp [List.eraseP] at hu
  | cons h t ih =>
    intro hnd u hu
    simp only [List.map_cons, List.nodup_cons] at hnd
    by_cases hh : h.id = i
    · rw [List.eraseP_cons_of_pos (by simpa using hh)] at hu
      intro hui
      exact hnd.1 (by rw [hh, ← hui]; exact List.mem_map_of_mem _ hu)
    · rw [List.eraseP_cons_of_neg (by simpa using hh)] at hu
      rcases List.mem_cons.mp hu with rfl | hu
      · exact hh
      · exact ih hnd.2 u hu

/-! ### Structure of the sync pass -/

lemma sync_cameras_nil (unit : ComputeUnitRow) (a : List Assignment) (now : Nat)
    (st : SyncState) : sync_cameras unit a now [] st = st := rfl

lemma sync_cameras_cons (unit : ComputeUnitRow) (a : List Assignment) (now : Nat)
    (c : CameraData) (cams : List CameraData) (st : SyncState) :
    sync_cameras unit a now (c :: cams) st =
      sync_cameras unit a now cams (sync_one_camera unit a now st c) := rfl

lemma sync_cameras_append (unit : ComputeUnitRow) (a : List Assignment) (now : Nat) :
    ∀ (l1 l2 : List CameraData) (st : SyncState),
      sync_cameras unit a now (l1 ++ l2) st =
        sync_cameras unit a now l2 (sync_cameras unit a now l1 st) := by
  intro l1
  induction l1 with
  | nil => intro l2 st; rfl
  | cons c t ih => intro l2 st; rw [List.cons_append, sync_cameras_cons,
      sync_cameras_cons, ih]

lemma upd_uuid (unit : ComputeUnitRow) (a : List Assignment) (now : Nat)
    (c : CameraData) (q : String) (s : StreamerRow) :
    (apply_camera_update unit a now c q s).streamer_uuid = s.streamer_uuid := rfl

lemma upd_id (unit : ComputeUnitRow) (a : List Assignment) (now : Nat)
    (c : CameraData) (q : String) (s : StreamerRow) :
    (apply_camera_update unit a now c q s).id = s.id := rfl

lemma upd_stype (unit : ComputeUnitRow) (a : List Assignment) (now : Nat)
    (c : CameraData) (q : String) (s : StreamerRow) :
    (apply_camera_update unit a now c q s).streamer_type = s.streamer_type := rfl

lemma upd_stype_uuid (unit : ComputeUnitRow) (a : List Assignment) (now : Nat)
    (c : CameraData) (q : String) (s : StreamerRow) :
    (apply_camera_update unit a now c q s).streamer_type_uuid =
      s.streamer_type_uuid := rfl

lemma upd_config (unit : ComputeUnitRow) (a : List Assignment) (now : Nat)
    (c : CameraData) (q : String) (s : StreamerRow) :
    (apply_camera_update unit a now c q s).config_template_name =
      s.config_template_name := rfl

lemma upd_hr (unit : ComputeUnitRow) (a : List Assignment) (now : Nat)
    (c : CameraData) (q : String) (s : StreamerRow) :
    (apply_camera_update unit a now c q s).streamer_hr_name =
      c.streamer_hr_name.getD s.streamer_hr_name := rfl

lemma upd_owner (unit : ComputeUnitRow) (a : List Assignment) (now : Nat)
    (c : CameraData) (q : String) (s : StreamerRow) :
    (apply_camera_update unit a now c q s).compute_unit_id = some unit.id := rfl

lemma upd_congr (unit : ComputeUnitRow) (a : List Assignment) (now : Nat)
    (c : CameraData) (q : String) (A B : StreamerRow)
    (h1 : A.id = B.id) (h2 : A.streamer_uuid = B.streamer_uuid)
    (h3 : A.streamer_type = B.streamer_type)
    (h4 : A.streamer_type_uuid = B.streamer_type_uuid)
    (h5 : A.config_template_name = B.config_template_name)
    (hhr : c.streamer_hr_name = none →
      A.streamer_hr_name = B.streamer_hr_name) :
    apply_camera_update unit a now c q A = apply_camera_update unit a now c q B := by
  cases hname : c.streamer_hr_name with
  | some nm => simp [apply_camera_update, hname, h1, h2, h3, h4, h5]
  | none => simp [apply_camera_update, hname, h1, h2, h3, h4, h5, hhr hname]

lemma matchChain_nil (unit : ComputeUnitRow) (a : List Assignment) (now : Nat)
    (q : String) (r : StreamerRow) : matchChain unit a now q [] r = r := rfl

lemma matchChain_cons_match (unit : ComputeUnitRow) (a : List Assignment)
    (now : Nat) (q : String) (c : CameraData) (cams : List CameraData)
    (r : StreamerRow) (hm : uuidOf c = some q) :
    matchChain unit a now q (c :: cams) r =
      matchChain unit a now q cams (apply_camera_update unit a now c q r) := by
  simp [matchChain, hm]

lemma matchChain_cons_nomatch (unit : ComputeUnitRow) (a : List Assignment)
    (now : Nat) (q : String) (c : CameraData) (cams : List CameraData)
    (r : StreamerRow) (hm : ¬ uuidOf c = some q) :
    matchChain unit a now q (c :: cams) r = matchChain unit a now q cams r := by
  simp [matchChain, hm]

lemma matchChain_append (unit : ComputeUnitRow) (a : List Assignment) (now : Nat)
    (q : String) : ∀ (l1 l2 : List CameraData) (r : StreamerRow),
      matchChain unit a now q (l1 ++ l2) r =
        matchChain unit a now q l2 (matchChain unit a now q l1 r) := by
  intro l1
  induction l1 with
  | nil => intro l2 r; rfl
  | cons c t ih =>
    intro l2 r
    by_cases hm : uuidOf c = some q
    · rw [List.cons_append, matchChain_cons_match unit a now q c _ r hm,
        matchChain_cons_match unit a now q c t r hm, ih]
    · rw [List.cons_append, matchChain_cons_nomatch unit a now q c _ r hm,
        matchChain_cons_nomatch unit a now q c t r hm, ih]

lemma matchChain_uuid (unit : ComputeUnitRow) (a : List Assignment) (now : Nat)
    (q : String) : ∀ (cams : List CameraData) (r : StreamerRow),
      (matchChain unit a now q cams r).streamer_uuid = r.streamer_uuid := by
  intro cams
  induction cams with
  | nil => intro r; rfl
  | cons c t ih =>
    intro r
    by_cases hm : uuidOf c = some q
    · rw [matchChain_cons_match unit a now q c t r hm, ih, upd_uuid]
    · rw [matchChain_cons_nomatch unit a now q c t r hm, ih]

lemma matchChain_id (unit : ComputeUnitRow) (a : List Assignment) (now : Nat)
    (q : String) : ∀ (cams : List CameraData) (r : StreamerRow),
      (matchChain unit a now q cams r).id = r.id := by
  intro cams
  induction cams with
  | nil => intro r; rfl
  | cons c t ih =>
    intro r
    by_cases hm : uuidOf c = some q
    · rw [matchChain_cons_match unit a now q c t r hm, ih, upd_id]
    · rw [matchChain_cons_nomatch unit a now q c t r hm, ih]

lemma matchChain_stype (unit : ComputeUnitRow) (a : List Assignment) (now : Nat)
    (q : String) : ∀ (cams : List CameraData) (r : StreamerRow),
      (matchChain unit a now q cams r).streamer_type = r.streamer_type := by
  intro cams
  induction cams with
  | nil => intro r; rfl
  | cons c t ih =>
    intro r
    by_cases hm : uuidOf c = some q
    · rw [matchChain_cons_match unit a now q c t r hm, ih, upd_stype]
    · rw [matchChain_cons_nomatch unit a now q c t r hm, ih]

lemma matchChain_stype_uuid (unit : ComputeUnitRow) (a : List Assignment)
    (now : Nat) (q : String) : ∀ (cams : List CameraData) (r : StreamerRow),
      (matchChain unit a now q cams r).streamer_type_uuid =
        r.streamer_type_uuid := by
  intro cams
  induction cams with
  | nil => intro r; rfl
  | cons c t ih =>
    intro r
    by_cases hm : uuidOf c = some q
    · rw [matchChain_cons_match unit a now q c t r hm, ih, upd_stype_uuid]
    · rw [matchChain_cons_nomatch unit a now q c t r hm, ih]

lemma matchChain_config (unit : ComputeUnitRow) (a : List Assignment) (now : Nat)
    (q : String) : ∀ (cams : List CameraData) (r : StreamerRow),
      (matchChain unit a now q cams r).config_template_name =
        r.config_template_name := by
  intro cams
  induction cams with
  | nil => intro r; rfl
  | cons c t ih =>
    intro r
    by_cases hm : uuidOf c = some q
    · rw [matchChain_cons_match unit a now q c t r hm, ih, upd_config]
    · rw [matchChain_cons_nomatch unit a now q c t r hm, ih]

lemma hrChain_nil (q : String) (v : String) : hrChain q [] v = v := rfl

lemma hrChain_cons_match (q : String) (c : CameraData) (cams : List CameraData)
    (v : String) (hm : uuidOf c = some q) :
    hrChain q (c :: cams) v = hrChain q cams (c.streamer_hr_name.getD v) := by
  simp [hrChain, hm]

lemma hrChain_cons_nomatch (q : String) (c : CameraData) (cams : List CameraData)
    (v : String) (hm : ¬ uuidOf c = some q) :
    hrChain q (c :: cams) v = hrChain q cams v := by
  simp [hrChain, hm]

lemma hrChain_append (q : String) : ∀ (l1 l2 : List CameraData) (v : String),
    hrChain q (l1 ++ l2) v = hrChain q l2 (hrChain q l1 v) := by
  intro l1
  induction l1 with
  | nil => intro l2 v; rfl
  | cons c t ih =>
    intro l2 v
    by_cases hm : uuidOf c = some q
    · rw [List.cons_append, hrChain_cons_match q c _ v hm,
        hrChain_cons_match q c t v hm, ih]
    · rw [List.cons_append, hrChain_cons_nomatch q c _ v hm,
        hrChain_cons_nomatch q c t v hm, ih]

lemma matchChain_hr (unit : ComputeUnitRow) (a : List Assignment) (now : Nat)
    (q : String) : ∀ (cams : List CameraData) (r : StreamerRow),
      (matchChain unit a now q cams r).streamer_hr_name =
        hrChain q cams r.streamer_hr_name := by
  intro cams
  induction cams with
  | nil => intro r; rfl
  | cons c t ih =>
    intro r
    by_cases hm : uuidOf c = some q
    · rw [matchChain_cons_match unit a now q c t r hm, ih, upd_hr,
        hrChain_cons_match q c t _ hm]
    · rw [matchChain_cons_nomatch unit a now q c t r hm, ih,
        hrChain_cons_nomatch q c t _ hm]

lemma hrChain_concat (q : String) (m : CameraData) (ds : List CameraData)
    (v : String) :
    hrChain q (ds ++ [m]) v =
      if uuidOf m = some q then m.streamer_hr_name.getD (hrChain q ds v)
      else hrChain q ds v := by
  rw [hrChain_append]
  by_cases hm : uuidOf m = some q
  · rw [hrChain_cons_match q m [] _ hm, hrChain_nil, if_pos hm]
  · rw [hrChain_cons_nomatch q m [] _ hm, hrChain_nil, if_neg hm]

lemma hrChain_idem (q : String) : ∀ (cams : List CameraData) (v : String),
    hrChain q cams (hrChain q cams v) = hrChain q cams v := by
  intro cams
  induction cams using List.reverseRecOn with
  | nil => intro v; rfl
  | append_singleton ds m ih =>
    intro v
    simp only [hrChain_concat]
    by_cases hm : uuidOf m = some q
    · cases hname : m.streamer_hr_name with
      | some nm => simp [hm, hname]
      | none => simp [hm, hname, ih]
    · simp [hm, ih]

lemma matchChain_concat (unit : ComputeUnitRow) (a : List Assignment) (now : Nat)
    (q : String) (m : CameraData) (ds : List CameraData) (r : StreamerRow) :
    matchChain unit a now q (ds ++ [m]) r =
      if uuidOf m = some q then
        apply_camera_update unit a now m q (matchChain unit a now q ds r)
      else matchChain unit a now q ds r := by
  rw [matchChain_append]
  by_cases hm : uuidOf m = some q
  · rw [matchChain_cons_match unit a now q m [] _ hm, matchChain_nil, if_pos hm]
  · rw [matchChain_cons_nomatch unit a now q m [] _ hm, matchChain_nil, if_neg hm]

lemma matchChain_idem (unit : ComputeUnitRow) (a : List Assignment) (now : Nat)
    (q : String) : ∀ (cams : List CameraData) (r : StreamerRow),
      matchChain unit a now q cams (matchChain unit a now q cams r) =
        matchChain unit a now q cams r := by
  intro cams
  induction cams using List.reverseRecOn with
  | nil => intro r; rfl
  | append_singleton ds m ih =>
    intro r
    simp only [matchChain_concat]
    by_cases hm : uuidOf m = some q
    · simp only [if_pos hm]
      apply upd_congr
      · rw [matchChain_id, upd_id, matchChain_id]
      · rw [matchChain_uuid, upd_uuid, matchChain_uuid]
      · rw [matchChain_stype, upd_stype, matchChain_stype]
      · rw [matchChain_stype_uuid, upd_stype_uuid, matchChain_stype_uuid]
      · rw [matchChain_config, upd_config, matchChain_config]
      · intro hname
        rw [matchChain_hr, upd_hr, hname, Option.getD_none, matchChain_hr,
          hrChain_idem]
    · simp only [if_neg hm]
      exact ih r

lemma SyncState_eta (t : SyncState) : (⟨t.rows, t.next_id⟩ : SyncState) = t := rfl

lemma sync_one_invalid (unit : ComputeUnitRow) (a : List Assignment) (now : Nat)
    (st : SyncState) (c : CameraData) (hc : uuidOf c = none) :
    sync_one_camera unit a now st c = st := by
  simp [sync_one_camera, hc]

lemma sync_one_head_match (unit : ComputeUnitRow) (a : List Assignment) (now : Nat)
    (r : StreamerRow) (rest : List StreamerRow) (k : Nat) (c : CameraData)
    (hc : uuidOf c = some r.streamer_uuid) :
    sync_one_camera unit a now ⟨r :: rest, k⟩ c =
      ⟨apply_camera_update unit a now c r.streamer_uuid r :: rest, k⟩ := by
  simp [sync_one_camera, hc, updateFirst]

lemma sync_one_head_skip (unit : ComputeUnitRow) (a : List Assignment) (now : Nat)
    (r : StreamerRow) (rest : List StreamerRow) (k : Nat) (c : CameraData)
    (w : String) (hc : uuidOf c = some w) (hw : ¬ w = r.streamer_uuid) :
    sync_one_camera unit a now ⟨r :: rest, k⟩ c =
      ⟨r :: (sync_one_camera unit a now ⟨rest, k⟩ c).rows,
       (sync_one_camera unit a now ⟨rest, k⟩ c).next_id⟩ := by
  have hrw : ¬ r.streamer_uuid = w := fun h => hw h.symm
  cases hany : rest.any (fun s => s.streamer_uuid = w) with
  | true => simp [sync_one_camera, hc, hany, updateFirst, hrw]
  | false => simp [sync_one_camera, hc, hany, hrw]

lemma sync_cameras_decomp (unit : ComputeUnitRow) (a : List Assignment)
    (now : Nat) : ∀ (cams : List CameraData) (r : StreamerRow)
      (rest : List StreamerRow) (k : Nat),
    sync_cameras unit a now cams ⟨r :: rest, k⟩ =
      ⟨matchChain unit a now r.streamer_uuid cams r ::
        (sync_cameras unit a now
          (cams.filter (fun c => ¬ uuidOf c = some r.streamer_uuid))
          ⟨rest, k⟩).rows,
       (sync_cameras unit a now
          (cams.filter (fun c => ¬ uuidOf c = some r.streamer_uuid))
          ⟨rest, k⟩).next_id⟩ := by
  intro cams
  induction cams with
  | nil => intro r rest k; rfl
  | cons c cs ih =>
    intro r rest k
    cases hcu : uuidOf c with
    | none =>
      have hfilter : (c :: cs).filter
          (fun x => ¬ uuidOf x = some r.streamer_uuid) =
          c :: cs.filter (fun x => ¬ uuidOf x = some r.streamer_uuid) := by
        simp [List.filter_cons, hcu]
      rw [sync_cameras_cons, sync_one_invalid unit a now _ c hcu, ih, hfilter,
        sync_cameras_cons, sync_one_invalid unit a now _ c hcu,
        matchChain_cons_nomatch unit a now _ c cs r (by simp [hcu])]
    | some w =>
      by_cases hw : w = r.streamer_uuid
      · subst hw
        have hfilter : (c :: cs).filter
            (fun x => ¬ uuidOf x = some r.streamer_uuid) =
            cs.filter (fun x => ¬ uuidOf x = some r.streamer_uuid) := by
          simp [List.filter_cons, hcu]
        rw [sync_cameras_cons, sync_one_head_match unit a now r rest k c hcu, ih,
          upd_uuid, hfilter,
          matchChain_cons_match unit a now _ c cs r hcu]
      · have hfilter : (c :: cs).filter
            (fun x => ¬ uuidOf x = some r.streamer_uuid) =
            c :: cs.filter (fun x => ¬ uuidOf x = some r.streamer_uuid) := by
          simp [List.filter_cons, hcu]
          exact hw
        rw [sync_cameras_cons, sync_one_head_skip unit a now r rest k c w hcu hw,
          ih, hfilter, sync_cameras_cons, SyncState_eta,
          matchChain_cons_nomatch unit a now _ c cs r
            (by rw [hcu]; exact fun h => hw (Option.some.inj h))]

lemma sync_cameras_idem_aux (unit : ComputeUnitRow) (a : List Assignment)
    (now : Nat) : ∀ (N : Nat) (cams : List CameraData) (st : SyncState),
    cams.length + st.rows.length ≤ N →
    sync_cameras unit a now cams (sync_cameras unit a now cams st) =
      sync_cameras unit a now cams st := by
  intro N
  induction N with
  | zero =>
    intro cams st h
    have hc : cams = [] := by
      cases cams with
      | nil => rfl
      | cons c cs => simp at h
    subst hc; rfl
  | succ N ih =>
    intro cams st h
    obtain ⟨rows, k⟩ := st
    cases rows with
    | cons r rest =>
      have hlen : (cams.filter
          (fun c => ¬ uuidOf c = some r.streamer_uuid)).length + rest.length ≤ N := by
        have hfl := List.length_filter_le
          (fun c => ¬ uuidOf c = some r.streamer_uuid) cams
        simp only [List.length_cons] at h
        omega
      rw [sync_cameras_decomp, sync_cameras_decomp, matchChain_uuid,
        SyncState_eta, matchChain_idem, ih _ _ hlen]
    | nil =>
      cases cams with
      | nil => rfl
      | cons c cs =>
        cases hcu : uuidOf c with
        | none =>
          rw [sync_cameras_cons, sync_one_invalid unit a now _ c hcu,
            sync_cameras_cons, sync_one_invalid unit a now _ c hcu]
          refine ih cs ⟨[], k⟩ ?_
          simp only [List.length_cons, List.length_nil] at h ⊢
          omega
        | some w =>
          have hone : sync_one_camera unit a now ⟨[], k⟩ c =
              ⟨[apply_camera_update unit a now c w
                  (new_streamer unit now c w k)], k + 1⟩ := by
            simp [sync_one_camera, hcu]
          have hru : (apply_camera_update unit a now c w
              (new_streamer unit now c w k)).streamer_uuid = w := rfl
          have hlen2 : (cs.filter (fun x => ¬ uuidOf x = some w)).length +
              ([] : List StreamerRow).length ≤ N := by
            have hfl := List.length_filter_le
              (fun x => ¬ uuidOf x = some w) cs
            simp only [List.length_cons, List.length_nil] at h ⊢
            omega
          have hhead : (matchChain unit a now w cs
              (apply_camera_update unit a now c w
                (new_streamer unit now c w k))).streamer_uuid = w := by
            rw [matchChain_uuid]; exact hru
          have hidem : matchChain unit a now w cs
              (apply_camera_update unit a now c w
                (matchChain unit a now w cs
                  (apply_camera_update unit a now c w
                    (new_streamer unit now c w k)))) =
              matchChain unit a now w cs
                (apply_camera_update unit a now c w
                  (new_streamer unit now c w k)) := by
            have h1 := matchChain_idem unit a now w (c :: cs)
              (new_streamer unit now c w k)
            rw [matchChain_cons_match unit a now w c cs _ hcu,
              matchChain_cons_match unit a now w c cs _ hcu] at h1
            exact h1
          have hinner : sync_cameras unit a now (c :: cs) ⟨[], k⟩ =
              sync_cameras unit a now cs
                ⟨[apply_camera_update unit a now c w
                    (new_streamer unit now c w k)], k + 1⟩ := by
            rw [sync_cameras_cons, hone]
          rw [hinner, sync_cameras_cons, sync_cameras_decomp, hru]
          rw [sync_one_head_match unit a now _ _ _ c (by rw [hhead]; exact hcu),
            hhead, sync_cameras_decomp, upd_uuid, hhead, SyncState_eta,
            ih _ _ hlen2, hidem]

lemma sync_cameras_idem (unit : ComputeUnitRow) (a : List Assignment) (now : Nat)
    (cams : List CameraData) (st : SyncState) :
    sync_cameras unit a now cams (sync_cameras unit a now cams st) =
      sync_cameras unit a now cams st :=
  sync_cameras_idem_aux unit a now (cams.length + st.rows.length) cams st
    (Nat.le_refl _)

/-! ### Counting, ownership and membership through the sync pass -/

lemma updateFirst_filter_uuid (w q : String) (f : StreamerRow → StreamerRow)
    (hf : ∀ s, (f s).streamer_uuid = s.streamer_uuid) :
    ∀ t : List StreamerRow,
      ((updateFirst w f t).filter (fun r => r.streamer_uuid = q)).length =
        (t.filter (fun r => r.streamer_uuid = q)).length := by
  intro t
  induction t with
  | nil => rfl
  | cons s rest ih =>
    by_cases hs : s.streamer_uuid = w
    · subst hs
      by_cases hq : s.streamer_uuid = q <;>
        simp [updateFirst, hq, List.filter_cons, hf]
    · by_cases hq : s.streamer_uuid = q
      · have hqw : ¬ q = w := fun h => hs (by rw [hq, h])
        simp [updateFirst, hs, hq, hqw, List.filter_cons, ih]
      · simp [updateFirst, hs, hq, List.filter_cons, ih]

lemma filter_len_zero_iff (q : String) (t : List StreamerRow) :
    ((t.filter (fun r => r.streamer_uuid = q)).length = 0) ↔
      t.any (fun s => s.streamer_uuid = q) = false := by
  rw [List.length_eq_zero, List.filter_eq_nil_iff, List.any_eq_false]

lemma sync_one_rows_update (unit : ComputeUnitRow) (a : List Assignment)
    (now : Nat) (st : SyncState) (c : CameraData) (w : String)
    (hcu : uuidOf c = some w)
    (hany : st.rows.any (fun s => s.streamer_uuid = w) = true) :
    (sync_one_camera unit a now st c).rows =
      updateFirst w (apply_camera_update unit a now c w) st.rows := by
  simp [sync_one_camera, hcu, hany]

lemma sync_one_rows_create (unit : ComputeUnitRow) (a : List Assignment)
    (now : Nat) (st : SyncState) (c : CameraData) (w : String)
    (hcu : uuidOf c = some w)
    (hany : st.rows.any (fun s => s.streamer_uuid = w) = false) :
    (sync_one_camera unit a now st c).rows =
      st.rows ++ [apply_camera_update unit a now c w
        (new_streamer unit now c w st.next_id)] := by
  simp [sync_one_camera, hcu, hany]

lemma sync_one_count_other (unit : ComputeUnitRow) (a : List Assignment)
    (now : Nat) (st : SyncState) (c : CameraData) (q : String)
    (hq : ¬ uuidOf c = some q) :
    ((sync_one_camera unit a now st c).rows.filter
        (fun r => r.streamer_uuid = q)).length =
      (st.rows.filter (fun r => r.streamer_uuid = q)).length := by
  cases hcu : uuidOf c with
  | none => rw [sync_one_invalid unit a now st c hcu]
  | some w =>
    have hwq : ¬ w = q := fun h => hq (by rw [hcu, h])
    cases hany : st.rows.any (fun s => s.streamer_uuid = w) with
    | true =>
      rw [sync_one_rows_update unit a now st c w hcu hany]
      exact updateFirst_filter_uuid w q _ (fun s => upd_uuid unit a now c w s)
        st.rows
    | false =>
      rw [sync_one_rows_create unit a now st c w hcu hany, List.filter_append]
      have hcre : (apply_camera_update unit a now c w
          (new_streamer unit now c w st.next_id)).streamer_uuid = w := rfl
      simp [List.filter_cons, hcre, hwq]

lemma sync_one_count_match_present (unit : ComputeUnitRow) (a : List Assignment)
    (now : Nat) (st : SyncState) (c : CameraData) (q : String)
    (hq : uuidOf c = some q)
    (hpres : st.rows.any (fun s => s.streamer_uuid = q) = true) :
    ((sync_one_camera unit a now st c).rows.filter
        (fun r => r.streamer_uuid = q)).length =
      (st.rows.filter (fun r => r.streamer_uuid = q)).length := by
  rw [sync_one_rows_update unit a now st c q hq hpres]
  exact updateFirst_filter_uuid q q _ (fun s => upd_uuid unit a now c q s) st.rows

lemma sync_one_count_match_absent (unit : ComputeUnitRow) (a : List Assignment)
    (now : Nat) (st : SyncState) (c : CameraData) (q : String)
    (hq : uuidOf c = some q)
    (habs : st.rows.any (fun s => s.streamer_uuid = q) = false) :
    ((sync_one_camera unit a now st c).rows.filter
        (fun r => r.streamer_uuid = q)).length =
      (st.rows.filter (fun r => r.streamer_uuid = q)).length + 1 := by
  rw [sync_one_rows_create unit a now st c q hq habs, List.filter_append]
  have hcre : (apply_camera_update unit a now c q
      (new_streamer unit now c q st.next_id)).streamer_uuid = q := rfl
  simp [List.filter_cons, hcre]

lemma sync_count_keep_one (unit : ComputeUnitRow) (a : List Assignment)
    (now : Nat) (q : String) : ∀ (cams : List CameraData) (st : SyncState),
    ((st.rows.filter (fun r => r.streamer_uuid = q)).length = 1) →
    (((sync_cameras unit a now cams st).rows.filter
        (fun r => r.streamer_uuid = q)).length = 1) := by
  intro cams
  induction cams with
  | nil => intro st h; exact h
  | cons c cs ih =>
    intro st h
    rw [sync_cameras_cons]
    apply ih
    by_cases hq : uuidOf c = some q
    · have hpres : st.rows.any (fun s => s.streamer_uuid = q) = true := by
        cases hany : st.rows.any (fun s => s.streamer_uuid = q) with
        | true => rfl
        | false =>
          have h0 := (filter_len_zero_iff q st.rows).mpr hany
          omega
      rw [sync_one_count_match_present unit a now st c q hq hpres]
      exact h
    · rw [sync_one_count_other unit a now st c q hq]
      exact h

lemma sync_count_create (unit : ComputeUnitRow) (a : List Assignment) (now : Nat)
    (q : String) : ∀ (cams : List CameraData) (st : SyncState),
    ((st.rows.filter (fun r => r.streamer_uuid = q)).length = 0) →
    (∃ c ∈ cams, uuidOf c = some q) →
    ((sync_cameras unit a now cams st).rows.filter
        (fun r => r.streamer_uuid = q)).length = 1 := by
  intro cams
  induction cams with
  | nil => intro st h0 hex; simp at hex
  | cons c cs ih =>
    intro st h0 hex
    rw [sync_cameras_cons]
    by_cases hq : uuidOf c = some q
    · have habs : st.rows.any (fun s => s.streamer_uuid = q) = false :=
        (filter_len_zero_iff q st.rows).mp h0
      apply sync_count_keep_one
      rw [sync_one_count_match_absent unit a now st c q hq habs, h0]
    · rcases hex with ⟨c2, hc2, hq2⟩
      rcases List.mem_cons.mp hc2 with rfl | hc2
      · exact absurd hq2 hq
      · refine ih _ ?_ ⟨c2, hc2, hq2⟩
        rw [sync_one_count_other unit a now st c q hq]
        exact h0

lemma mem_updateFirst (w : String) (f : StreamerRow → StreamerRow) :
    ∀ (t : List StreamerRow) (r : StreamerRow), r ∈ updateFirst w f t →
      r ∈ t ∨ ∃ x ∈ t, x.streamer_uuid = w ∧ r = f x := by
  intro t
  induction t with
  | nil => intro r hr; simp [updateFirst] at hr
  | cons s rest ih =>
    intro r hr
    by_cases hs : s.streamer_uuid = w
    · rw [updateFirst, if_pos hs] at hr
      rcases List.mem_cons.mp hr with rfl | hr
      · exact Or.inr ⟨s, List.mem_cons_self s rest, hs, rfl⟩
      · exact Or.inl (List.mem_cons_of_mem s hr)
    · rw [updateFirst, if_neg hs] at hr
      rcases List.mem_cons.mp hr with rfl | hr
      · exact Or.inl (List.mem_cons_self _ _)
      · rcases ih r hr with h | ⟨x, hx, hxw, hrx⟩
        · exact Or.inl (List.mem_cons_of_mem s h)
        · exact Or.inr ⟨x, List.mem_cons_of_mem s hx, hxw, hrx⟩

lemma mem_updateFirst_of_ne (w : String) (f : StreamerRow → StreamerRow) :
    ∀ (t : List StreamerRow) (r : StreamerRow), r ∈ t →
      ¬ r.streamer_uuid = w → r ∈ updateFirst w f t := by
  intro t
  induction t with
  | nil => intro r hr _; exact absurd hr (List.not_mem_nil r)
  | cons s rest ih =>
    intro r hr hne
    by_cases hs : s.streamer_uuid = w
    · rw [updateFirst, if_pos hs]
      rcases List.mem_cons.mp hr with rfl | hr
      · exact absurd hs hne
      · exact List.mem_cons_of_mem _ hr
    · rw [updateFirst, if_neg hs]
      rcases List.mem_cons.mp hr with rfl | hr
      · exact List.mem_cons_self _ _
      · exact List.mem_cons_of_mem _ (ih r hr hne)

lemma updateFirst_hit (w : String) (f : StreamerRow → StreamerRow) :
    ∀ t : List StreamerRow, t.any (fun s => s.streamer_uuid = w) = true →
      ∃ x ∈ t, x.streamer_uuid = w ∧ f x ∈ updateFirst w f t := by
  intro t
  induction t with
  | nil => intro h; simp at h
  | cons s rest ih =>
    intro h
    by_cases hs : s.streamer_uuid = w
    · refine ⟨s, List.mem_cons_self _ _, hs, ?_⟩
      rw [updateFirst, if_pos hs]
      exact List.mem_cons_self _ _
    · have h2 : rest.any (fun s => s.streamer_uuid = w) = true := by
        simpa [List.any_cons, hs] using h
      obtain ⟨x, hx, hxw, hfx⟩ := ih h2
      refine ⟨x, List.mem_cons_of_mem _ hx, hxw, ?_⟩
      rw [updateFirst, if_neg hs]
      exact List.mem_cons_of_mem _ hfx

lemma sync_one_owner (unit : ComputeUnitRow) (a : List Assignment) (now : Nat)
    (st : SyncState) (c : CameraData) (q : String)
    (h : ∀ r ∈ st.rows, r.streamer_uuid = q → r.compute_unit_id = some unit.id) :
    ∀ r ∈ (sync_one_camera unit a now st c).rows, r.streamer_uuid = q →
      r.compute_unit_id = some unit.id := by
  intro r hr hq2
  cases hcu : uuidOf c with
  | none =>
    rw [sync_one_invalid unit a now st c hcu] at hr
    exact h r hr hq2
  | some w =>
    cases hany : st.rows.any (fun s => s.streamer_uuid = w) with
    | true =>
      rw [sync_one_rows_update unit a now st c w hcu hany] at hr
      rcases mem_updateFirst w _ st.rows r hr with h1 | ⟨x, _, _, rfl⟩
      · exact h r h1 hq2
      · exact upd_owner unit a now c w x
    | false =>
      rw [sync_one_rows_create unit a now st c w hcu hany] at hr
      rcases List.mem_append.mp hr with h1 | h1
      · exact h r h1 hq2
      · rw [List.mem_singleton] at h1
        subst h1
        exact upd_owner unit a now c w _

lemma sync_owner (unit : ComputeUnitRow) (a : List Assignment) (now : Nat)
    (q : String) : ∀ (cams : List CameraData) (st : SyncState),
    (∀ r ∈ st.rows, r.streamer_uuid = q → r.compute_unit_id = some unit.id) →
    ∀ r ∈ (sync_cameras unit a now cams st).rows, r.streamer_uuid = q →
      r.compute_unit_id = some unit.id := by
  intro cams
  induction cams with
  | nil => intro st h; exact h
  | cons c cs ih =>
    intro st h
    rw [sync_cameras_cons]
    exact ih _ (sync_one_owner unit a now st c q h)

lemma updateFirst_any (w q : String) (f : StreamerRow → StreamerRow)
    (hf : ∀ s, (f s).streamer_uuid = s.streamer_uuid) :
    ∀ t : List StreamerRow,
      (updateFirst w f t).any (fun s => s.streamer_uuid = q) =
        t.any (fun s => s.streamer_uuid = q) := by
  intro t
  induction t with
  | nil => rfl
  | cons s rest ih =>
    by_cases hs : s.streamer_uuid = w
    · simp [updateFirst, hs, hf, List.any_cons]
    · simp [updateFirst, hs, List.any_cons, ih]

lemma sync_one_name (unit : ComputeUnitRow) (a : List Assignment) (now : Nat)
    (st : SyncState) (c : CameraData) (q v : String)
    (hnone : uuidOf c = some q → c.streamer_hr_name = none)
    (hpres : st.rows.any (fun s => s.streamer_uuid = q) = true)
    (hv : ∀ r ∈ st.rows, r.streamer_uuid = q → r.streamer_hr_name = v) :
    ((sync_one_camera unit a now st c).rows.any
      (fun s => s.streamer_uuid = q) = true) ∧
    ∀ r ∈ (sync_one_camera unit a now st c).rows, r.streamer_uuid = q →
      r.streamer_hr_name = v := by
  cases hcu : uuidOf c with
  | none =>
    rw [sync_one_invalid unit a now st c hcu]
    exact ⟨hpres, hv⟩
  | some w =>
    cases hany : st.rows.any (fun s => s.streamer_uuid = w) with
    | true =>
      rw [sync_one_rows_update unit a now st c w hcu hany]
      refine ⟨?_, ?_⟩
      · rw [updateFirst_any w q _ (fun s => upd_uuid unit a now c w s)]
        exact hpres
      · intro r hr hq2
        rcases mem_updateFirst w _ st.rows r hr with h1 | ⟨x, hx, hxw, rfl⟩
        · exact hv r h1 hq2
        · have hxq : x.streamer_uuid = q := by
            rw [← upd_uuid unit a now c w x]; exact hq2
          have hwq : w = q := by rw [← hxw]; exact hxq
          have hname := hnone (by rw [hcu, hwq])
          rw [upd_hr, hname, Option.getD_none]
          exact hv x hx hxq
    | false =>
      by_cases hwq : w = q
      · subst hwq
        rw [hany] at hpres
        exact absurd hpres (by simp)
      · rw [sync_one_rows_create unit a now st c w hcu hany]
        constructor
        · simp only [List.any_append, hpres, Bool.true_or]
        · intro r hr hq2
          rcases List.mem_append.mp hr with h1 | h1
          · exact hv r h1 hq2
          · rw [List.mem_singleton] at h1
            subst h1
            have hcre : (apply_camera_update unit a now c w
                (new_streamer unit now c w st.next_id)).streamer_uuid = w := rfl
            rw [hcre] at hq2
            exact absurd hq2 hwq

lemma sync_name (unit : ComputeUnitRow) (a : List Assignment) (now : Nat)
    (q v : String) : ∀ (cams : List CameraData) (st : SyncState),
    (∀ c ∈ cams, uuidOf c = some q → c.streamer_hr_name = none) →
    (st.rows.any (fun s => s.streamer_uuid = q) = true) →
    (∀ r ∈ st.rows, r.streamer_uuid = q → r.streamer_hr_name = v) →
    ((sync_cameras unit a now cams st).rows.any
      (fun s => s.streamer_uuid = q) = true) ∧
    ∀ r ∈ (sync_cameras unit a now cams st).rows, r.streamer_uuid = q →
      r.streamer_hr_name = v := by
  intro cams
  induction cams with
  | nil => intro st _ hpres hv; exact ⟨hpres, hv⟩
  | cons c cs ih =>
    intro st hnone hpres hv
    rw [sync_cameras_cons]
    have hstep := sync_one_name unit a now st c q v
      (fun hq => hnone c (List.mem_cons_self _ _) hq) hpres hv
    exact ih _ (fun d hd => hnone d (List.mem_cons_of_mem _ hd)) hstep.1 hstep.2

lemma sync_one_hit (unit : ComputeUnitRow) (a : List Assignment) (now : Nat)
    (st : SyncState) (c : CameraData) (q : String) (hq : uuidOf c = some q) :
    ∃ r ∈ (sync_one_camera unit a now st c).rows, r.streamer_uuid = q ∧
      r.status = (if c.is_alive = some "1" then "active" else "inactive") ∧
      r.is_alive = c.is_alive.getD "0" := by
  cases hany : st.rows.any (fun s => s.streamer_uuid = q) with
  | true =>
    obtain ⟨x, hx, hxq, hfx⟩ :=
      updateFirst_hit q (apply_camera_update unit a now c q) st.rows hany
    refine ⟨apply_camera_update unit a now c q x, ?_, ?_, rfl, rfl⟩
    · rw [sync_one_rows_update unit a now st c q hq hany]
      exact hfx
    · rw [upd_uuid]
      exact hxq
  | false =>
    refine ⟨apply_camera_update unit a now c q
      (new_streamer unit now c q st.next_id), ?_, rfl, rfl, rfl⟩
    rw [sync_one_rows_create unit a now st c q hq hany]
    exact List.mem_append_right _ (List.mem_singleton_self _)

lemma sync_mem_preserve (unit : ComputeUnitRow) (a : List Assignment)
    (now : Nat) : ∀ (cams : List CameraData) (st : SyncState) (r : StreamerRow),
    r ∈ st.rows → (∀ d ∈ cams, ¬ uuidOf d = some r.streamer_uuid) →
    r ∈ (sync_cameras unit a now cams st).rows := by
  intro cams
  induction cams with
  | nil => intro st r hr _; exact hr
  | cons c cs ih =>
    intro st r hr hd
    rw [sync_cameras_cons]
    refine ih _ r ?_ (fun d hdm => hd d (List.mem_cons_of_mem _ hdm))
    cases hcu : uuidOf c with
    | none =>
      rw [sync_one_invalid unit a now st c hcu]
      exact hr
    | some w =>
      have hwr : ¬ r.streamer_uuid = w := by
        intro hcontra
        exact hd c (List.mem_cons_self _ _) (by rw [hcu, hcontra])
      cases hany : st.rows.any (fun s => s.streamer_uuid = w) with
      | true =>
        rw [sync_one_rows_update unit a now st c w hcu hany]
        exact mem_updateFirst_of_ne w _ st.rows r hr hwr
      | false =>
        rw [sync_one_rows_create unit a now st c w hcu hany]
        exact List.mem_append_left _ hr

/-! ## Claim theorems -/

/-- Claim C3: `probe(A)` reports reachable exactly when the remote replied
HTTP 200 with a JSON body whose `msg` field is exactly the string `pong`;
any other body (missing or different `msg`, unparseable body) and any
non-200 status or transport failure yield reachable = false. -/
theorem C3_probe_pong_iff (ip_address : String) (fetch : PingFetch) :
    (ping_device_detailed ip_address fetch).reachable = true ↔
      ∃ body : PingBody, fetch = PingFetch.reply 200 (some body) ∧
        body.msg = some "pong" := by
  cases fetch with
  | connectionError => simp [ping_device_detailed]
  | timeout => simp [ping_device_detailed]
  | otherFailure => simp [ping_device_detailed]
  | reply statusCode body =>
    by_cases hsc : statusCode = 200
    · subst hsc
      cases body with
      | none => simp [ping_device_detailed]
      | some data =>
        simp [ping_device_detailed]
    · cases body with
      | none => simp [ping_device_detailed, hsc]
      | some data => simp [ping_device_detailed, hsc]

/-- Closed instance of C3: a `pong` reply is reachable. -/
theorem C3_probe_pong_iff_witness :
    (ping_device_detailed "10.0.0.5"
      (PingFetch.reply 200 (some { msg := some "pong", statusField := none }))).reachable
      = true :=
  (C3_probe_pong_iff "10.0.0.5" _).mpr ⟨_, rfl, rfl⟩

/-- Claim C4: feature derivation keeps exactly the assignments matching the
streamer uuid with `is_active` equal to the string `true` and both names
non-empty, in order and without deduplication, formatting each as
`appName.templateName`; on the two-record example it yields `motion.default`. -/
theorem C4_feature_derivation (s : String) (L : List Assignment) :
    convert_assignments_to_features s L =
      (L.filter (fun a => a.streamer_uuid = some s ∧ a.is_active = some "true" ∧
          ¬ a.app_name.getD "" = "" ∧
          ¬ a.app_config_template_name.getD "" = "")).map
        (fun a => a.app_name.getD "" ++ "." ++ a.app_config_template_name.getD "")
      ∧
    convert_assignments_to_features "s1"
      [{ streamer_uuid := some "s1", app_name := some "motion",
         app_config_template_name := some "default", is_active := some "true" },
       { streamer_uuid := some "s1", app_name := some "face",
         app_config_template_name := some "v2", is_active := some "false" }] =
      ["motion.default"] := by
  refine ⟨?_, by decide⟩
  induction L with
  | nil => rfl
  | cons a t ih =>
    by_cases h1 : a.streamer_uuid = some s ∧ a.is_active = some "true"
    · by_cases h2 : ¬ a.app_name.getD "" = "" ∧
          ¬ a.app_config_template_name.getD "" = ""
      · simp [convert_assignments_to_features, h1, h2, ih]
      · simp [convert_assignments_to_features, h1, h2, ih]
    · have : ¬ (a.streamer_uuid = some s ∧ a.is_active = some "true" ∧
          ¬ a.app_name.getD "" = "" ∧
          ¬ a.app_config_template_name.getD "" = "") := by
        rintro ⟨hx1, hx2, hx3, hx4⟩
        exact h1 ⟨hx1, hx2⟩
      simp [convert_assignments_to_features, h1, this, ih]

/-- Claim C9: the streamer-inventory proxy is total: it answers HTTP 200 for
every request, answers an empty payload when no address is supplied, when the
device fetch fails at the transport level or when the device answers non-200,
and a transport failure is indistinguishable from a device successfully
reporting zero streamers. -/
theorem C9_proxy_total (ip : String) (device : HttpFetch)
    (hfail : device = HttpFetch.transportError ∨
      ∃ statusCode body, device = HttpFetch.reply statusCode body ∧
        statusCode ≠ 200) :
    (∀ ipo d, (get_cameras_proxy ipo d).1 = 200) ∧
    get_cameras_proxy (some ip) device = (200, { payload := some [] }) ∧
    get_cameras_proxy none device = (200, { payload := some [] }) ∧
    get_cameras_proxy (some ip) device =
      get_cameras_proxy (some ip)
        (HttpFetch.reply 200 (some { payload := some [] })) := by
  refine ⟨fun ipo d => get_cameras_proxy_status ipo d, ?_, rfl, ?_⟩
  · by_cases hip : ip = ""
    · simp [get_cameras_proxy, hip]
    · rcases hfail with h | ⟨sc, b, h, hne⟩
      · subst h; simp [get_cameras_proxy, hip]
      · subst h; simp [get_cameras_proxy, hip, hne]
  · by_cases hip : ip = ""
    · simp [get_cameras_proxy, hip]
    · rcases hfail with h | ⟨sc, b, h, hne⟩
      · subst h; simp [get_cameras_proxy, hip]
      · subst h; simp [get_cameras_proxy, hip, hne]

/-- Closed instance of C9: a transport error still answers 200 with an
empty payload. -/
theorem C9_proxy_total_witness :
    get_cameras_proxy (some "10.0.0.5") HttpFetch.transportError =
      (200, { payload := some [] }) :=
  (C9_proxy_total "10.0.0.5" HttpFetch.transportError (Or.inl rfl)).2.1

/-- Claim C2 as stated is false on the code: when the inventory fetch fails at
the transport level, the unit's persisted status does become offline, but the
owned streamer row keeps its previous persisted status and liveness instead of
being marked inactive with liveness cleared. -/
theorem C2_offline_cascade_counterexample :
    ((list_one_unit cu0 HttpFetch.transportError AssignFetch.transportError 5
        { rows := [sr1], next_id := 20 }).2.1.status = "offline") ∧
    ¬ (∀ r ∈ (list_one_unit cu0 HttpFetch.transportError AssignFetch.transportError 5
          { rows := [sr1], next_id := 20 }).2.2.rows,
        r.compute_unit_id = some cu0.id →
          r.status = "inactive" ∧ r.is_alive = "0") := by
  decide

/-- Claim C2 amended: when the transport call fetching the inventory fails
during a reconciliation pass, the unit's persisted status is set to offline and
nothing else is mutated — the persisted streamer rows are left exactly as they
were; the owned streamers are shown inactive with liveness cleared only in the
serialized response of that listing. -/
theorem C2_offline_cascade_amended (unit : ComputeUnitRow) (afetch : AssignFetch)
    (now : Nat) (st : SyncState) (hon : unit.status = "online") :
    (list_one_unit unit HttpFetch.transportError afetch now st).2.1 =
      { unit with status := "offline" } ∧
    (list_one_unit unit HttpFetch.transportError afetch now st).2.2 = st ∧
    (list_one_unit unit HttpFetch.transportError afetch now st).1.status =
      "offline" ∧
    ∀ cv ∈ (list_one_unit unit HttpFetch.transportError afetch now st).1.cameras,
      cv.status = "inactive" ∧ cv.is_alive = "0" := by
  refine ⟨?_, ?_, ?_, ?_⟩
  · simp [list_one_unit, sync_cameras_from_unit, hon]
  · simp [list_one_unit, sync_cameras_from_unit, hon]
  · simp [list_one_unit, sync_cameras_from_unit, hon]
  · intro cv hcv
    simp [list_one_unit, sync_cameras_from_unit, hon] at hcv
    obtain ⟨s, _, rfl⟩ := hcv
    exact ⟨rfl, rfl⟩

/-- Closed instance of the amended C2: the concrete pass leaves the streamer
table untouched while persisting the unit as offline. -/
theorem C2_offline_cascade_amended_witness :
    (list_one_unit cu0 HttpFetch.transportError AssignFetch.transportError 5
      { rows := [sr1], next_id := 20 }).2.2 =
      { rows := [sr1], next_id := 20 } ∧
    (list_one_unit cu0 HttpFetch.transportError AssignFetch.transportError 5
      { rows := [sr1], next_id := 20 }).2.1.status = "offline" :=
  ⟨(C2_offline_cascade_amended cu0 AssignFetch.transportError 5
      { rows := [sr1], next_id := 20 } rfl).2.1,
    by rw [(C2_offline_cascade_amended cu0 AssignFetch.transportError 5
      { rows := [sr1], next_id := 20 } rfl).1]⟩

/-- Claim C6: in a list-compute-units response, a unit whose reconciliation
pass raised is serialized with status offline, and every camera serialized
under a unit shown offline is serialized inactive with liveness cleared. -/
theorem C6_listing_snapshot_consistent (unit : ComputeUnitRow)
    (fetch : HttpFetch) (afetch : AssignFetch) (now : Nat) (st : SyncState) :
    (unit.status = "online" →
      (sync_cameras_from_unit unit fetch afetch now st).raised = true →
      (list_one_unit unit fetch afetch now st).1.status = "offline") ∧
    ((list_one_unit unit fetch afetch now st).1.status = "offline" →
      ∀ cv ∈ (list_one_unit unit fetch afetch now st).1.cameras,
        cv.status = "inactive" ∧ cv.is_alive = "0") := by
  constructor
  · intro hon hr
    simp [list_one_unit, hon, hr]
  · intro hoff cv hcv
    by_cases hon : unit.status = "online"
    · by_cases hr : (sync_cameras_from_unit unit fetch afetch now st).raised = true
      · simp [list_one_unit, hon, hr] at hcv
        obtain ⟨s, _, rfl⟩ := hcv
        exact ⟨rfl, rfl⟩
      · rw [Bool.not_eq_true] at hr
        simp [list_one_unit, hon, hr] at hoff
    · simp [list_one_unit, hon] at hoff hcv
      simp [hoff] at hcv
      obtain ⟨s, _, rfl⟩ := hcv
      exact ⟨rfl, rfl⟩

/-- Closed instance of C6: the concrete failed pass shows the unit offline and
its camera inactive in the same response. -/
theorem C6_listing_snapshot_consistent_witness :
    (list_one_unit cu0 HttpFetch.transportError AssignFetch.transportError 5
      { rows := [sr1], next_id := 20 }).1.status = "offline" :=
  (C6_listing_snapshot_consistent cu0 HttpFetch.transportError
    AssignFetch.transportError 5 { rows := [sr1], next_id := 20 }).1 rfl rfl

/-- Claim C7: deleting a known compute unit removes, in one transaction, the
unit and exactly its owned streamers, answers 200 with the owned-streamer
count, afterwards a lookup of any deleted streamer uuid finds nothing and the
unit id is gone; a commit failure rolls everything back and answers 500. -/
theorem C7_cascading_delete (dbase : DB) (unit_id : Nat)
    (hu : (dbase.units.find? (fun u => u.id = unit_id)).isSome = true)
    (hnodupUuid : (dbase.streamers.map (fun s => s.streamer_uuid)).Nodup)
    (hnodupId : (dbase.units.map (fun u => u.id)).Nodup) :
    (delete_compute_unit dbase unit_id true).2.1 = 200 ∧
    (delete_compute_unit dbase unit_id true).2.2 =
      some (dbase.streamers.filter
        (fun s => s.compute_unit_id = some unit_id)).length ∧
    (∀ s0 ∈ dbase.streamers.filter (fun s => s.compute_unit_id = some unit_id),
      find_streamer_by_uuid (delete_compute_unit dbase unit_id true).1
        s0.streamer_uuid = none) ∧
    (∀ u ∈ (delete_compute_unit dbase unit_id true).1.units, u.id ≠ unit_id) ∧
    delete_compute_unit dbase unit_id false = (dbase, 500, none) := by
  obtain ⟨u0, hfind⟩ := Option.isSome_iff_exists.mp hu
  refine ⟨by simp [delete_compute_unit, hfind], by simp [delete_compute_unit, hfind],
    ?_, ?_, by simp [delete_compute_unit, hfind]⟩
  · intro s0 hs0
    have hred : (delete_compute_unit dbase unit_id true).1.streamers =
        dbase.streamers.filter (fun s => ¬ s.compute_unit_id = some unit_id) := by
      simp [delete_compute_unit, hfind]
    rw [find_streamer_by_uuid, hred, List.find?_eq_none]
    intro s hs hsu
    rw [List.mem_filter] at hs hs0
    simp only [decide_eq_true_eq] at hs hs0
    have hss0 : s = s0 :=
      List.inj_on_of_nodup_map hnodupUuid hs.1 hs0.1 (by simpa using hsu)
    rw [hss0] at hs
    exact hs.2 hs0.2
  · intro u huu
    have hred : (delete_compute_unit dbase unit_id true).1.units =
        dbase.units.eraseP (fun x => x.id = unit_id) := by
      simp [delete_compute_unit, hfind]
    rw [hred] at huu
    exact eraseP_id_not_mem unit_id dbase.units hnodupId u huu

/-- Closed instance of C7: deleting the concrete unit with three owned
streamers reports three deletions and its streamers are no longer found. -/
theorem C7_cascading_delete_witness :
    (delete_compute_unit db0 1 true).2.2 = some 3 ∧
    find_streamer_by_uuid (delete_compute_unit db0 1 true).1 "cam-1" = none := by
  have h := C7_cascading_delete db0 1 (by decide) (by decide) (by decide)
  exact ⟨h.2.1.trans (by decide), h.2.2.1 sr1 (by decide)⟩

/-- Claim C8: adding a compute unit answers 409 and creates nothing when the
address is already registered, answers 400 and creates nothing when the probe
does not report reachable, and otherwise answers 201 having persisted a new
unit with that address and status online. -/
theorem C8_add_conflict_unreachable (dbase : DB) (ip_raw : String)
    (name_opt : Option String) (ping : PingFetch) (fetch : HttpFetch)
    (afetch : AssignFetch) (now : Nat) :
    ((∃ u ∈ dbase.units, u.ip_address = pyStrip ip_raw) →
      add_compute_unit dbase ip_raw name_opt ping fetch afetch now =
        (dbase, 409)) ∧
    ((∀ u ∈ dbase.units, ¬ u.ip_address = pyStrip ip_raw) →
      (ping_device_detailed (pyStrip ip_raw) ping).reachable = false →
      add_compute_unit dbase ip_raw name_opt ping fetch afetch now =
        (dbase, 400)) ∧
    ((∀ u ∈ dbase.units, ¬ u.ip_address = pyStrip ip_raw) →
      (ping_device_detailed (pyStrip ip_raw) ping).reachable = true →
      (add_compute_unit dbase ip_raw name_opt ping fetch afetch now).2 = 201 ∧
      ∃ u ∈ (add_compute_unit dbase ip_raw name_opt ping fetch afetch now).1.units,
        u.ip_address = pyStrip ip_raw ∧ u.status = "online") := by
  refine ⟨?_, ?_, ?_⟩
  · intro hex
    have hsome : (dbase.units.find? (fun u => u.ip_address = pyStrip ip_raw)).isSome := by
      rw [List.find?_isSome]
      obtain ⟨u, hu, hip⟩ := hex
      exact ⟨u, hu, by simpa using hip⟩
    obtain ⟨u0, hfind⟩ := Option.isSome_iff_exists.mp hsome
    simp [add_compute_unit, hfind]
  · intro hall hreach
    have hfind : dbase.units.find? (fun u => u.ip_address = pyStrip ip_raw) = none := by
      rw [List.find?_eq_none]
      intro u hu
      simpa using hall u hu
    simp [add_compute_unit, hfind, hreach]
  · intro hall hreach
    have hfind : dbase.units.find? (fun u => u.ip_address = pyStrip ip_raw) = none := by
      rw [List.find?_eq_none]
      intro u hu
      simpa using hall u hu
    by_cases hr : (sync_cameras_from_unit
        { id := dbase.next_unit_id
          name := name_opt.getD ("Compute Unit " ++ pyStrip ip_raw)
          ip_address := pyStrip ip_raw
          status := "online"
          last_seen := now } fetch afetch now
        ⟨dbase.streamers, dbase.next_streamer_id⟩).raised = true
    · constructor
      · simp [add_compute_unit, hfind, hreach, hr]
      · simp [add_compute_unit, hfind, hreach, hr]
        exact ⟨_, Or.inr rfl, rfl, rfl⟩
    · rw [Bool.not_eq_true] at hr
      constructor
      · simp [add_compute_unit, hfind, hreach, hr]
      · simp only [add_compute_unit, hfind, hreach, hr]
        simp only [if_true, if_false]
        cases fetch with
        | transportError => simp [sync_cameras_from_unit] at hr
        | reply sc b =>
          by_cases hsc : sc = 200
          · subst hsc
            cases b with
            | none => simp [sync_cameras_from_unit] at hr
            | some data =>
              refine ⟨_, List.mem_map_of_mem _ (List.mem_append_right _
                (List.mem_singleton_self _)), ?_⟩
              simp [sync_cameras_from_unit]
          · refine ⟨_, List.mem_map_of_mem _ (List.mem_append_right _
              (List.mem_singleton_self _)), ?_⟩
            simp [sync_cameras_from_unit, hsc]

/-- Closed instances of C8: adding a duplicate address conflicts without a new
row, and adding a fresh reachable address persists an online unit. -/
theorem C8_add_conflict_unreachable_witness :
    add_compute_unit db0 "10.0.0.5" none PingFetch.timeout
      HttpFetch.transportError AssignFetch.transportError 3 = (db0, 409) ∧
    (add_compute_unit dbEmpty "10.0.0.9" none
      (PingFetch.reply 200 (some { msg := some "pong", statusField := none }))
      HttpFetch.transportError AssignFetch.transportError 3).2 = 201 := by
  constructor
  · exact (C8_add_conflict_unreachable db0 "10.0.0.5" none PingFetch.timeout
      HttpFetch.transportError AssignFetch.transportError 3).1
      ⟨cu0, by decide, by decide⟩
  · exact ((C8_add_conflict_unreachable dbEmpty "10.0.0.9" none
      (PingFetch.reply 200 (some { msg := some "pong", statusField := none }))
      HttpFetch.transportError AssignFetch.transportError 3).2.2
      (by intro u hu; simp [dbEmpty] at hu) (by decide)).1

/-- Claim C1: when the inventory reports a previously-unseen uuid, one sync
pass creates exactly one Streamer row with that uuid, owned by the syncing
unit; re-running the pass with the unchanged inventory (and assignments and
timestamp) leaves the persisted streamer table exactly identical, in
particular still with exactly one row for that uuid. -/
theorem C1_reconcile_upsert_idempotent (unit : ComputeUnitRow)
    (a : List Assignment) (now : Nat) (cams : List CameraData) (st : SyncState)
    (u : String) (hfresh : ∀ r ∈ st.rows, ¬ r.streamer_uuid = u)
    (hrep : ∃ c ∈ cams, uuidOf c = some u) :
    ((sync_cameras unit a now cams st).rows.filter
        (fun r => r.streamer_uuid = u)).length = 1 ∧
    (∀ r ∈ (sync_cameras unit a now cams st).rows, r.streamer_uuid = u →
      r.compute_unit_id = some unit.id) ∧
    sync_cameras unit a now cams (sync_cameras unit a now cams st) =
      sync_cameras unit a now cams st ∧
    ((sync_cameras unit a now cams
        (sync_cameras unit a now cams st)).rows.filter
        (fun r => r.streamer_uuid = u)).length = 1 := by
  have hzero : (st.rows.filter (fun r => r.streamer_uuid = u)).length = 0 :=
    (filter_len_zero_iff u st.rows).mpr (by
      rw [List.any_eq_false]
      intro x hx
      simpa using hfresh x hx)
  have h1 := sync_count_create unit a now u cams st hzero hrep
  have hidem := sync_cameras_idem unit a now cams st
  refine ⟨h1, ?_, hidem, by rw [hidem]; exact h1⟩
  exact sync_owner unit a now u cams st
    (fun r hr hq => absurd hq (hfresh r hr))

/-- Closed instance of C1: syncing a fresh uuid into an empty table creates
one row and a second identical pass changes nothing. -/
theorem C1_reconcile_upsert_idempotent_witness :
    ((sync_cameras cu0 [] 7 [camA] ⟨[], 1⟩).rows.filter
        (fun r => r.streamer_uuid = "cam-9")).length = 1 ∧
    sync_cameras cu0 [] 7 [camA] (sync_cameras cu0 [] 7 [camA] ⟨[], 1⟩) =
      sync_cameras cu0 [] 7 [camA] ⟨[], 1⟩ := by
  have h := C1_reconcile_upsert_idempotent cu0 [] 7 [camA] ⟨[], 1⟩ "cam-9"
    (by intro r hr; simp at hr)
    ⟨camA, List.mem_singleton_self _, by decide⟩
  exact ⟨h.1, h.2.2.1⟩

/-- Claim C5 as stated is false on the code: when the remote inventory reports
a present-but-empty display name, the sync pass overwrites the locally
persisted name with the empty string instead of preserving it. -/
theorem C5_name_guard_counterexample :
    (∃ r ∈ (sync_cameras cu0 [] 7 [camEmptyName] ⟨[sr1], 20⟩).rows,
      r.streamer_uuid = "cam-1" ∧ r.streamer_hr_name = "") ∧
    ¬ (∀ r ∈ (sync_cameras cu0 [] 7 [camEmptyName] ⟨[sr1], 20⟩).rows,
        r.streamer_uuid = "cam-1" →
        r.streamer_hr_name = sr1.streamer_hr_name) := by
  decide

/-- Claim C5 amended: an existing streamer's display name survives a
reconciliation pass only when every inventory entry for it omits the name
field entirely; a present name — even the empty string — always overwrites. -/
theorem C5_name_guard_amended (unit : ComputeUnitRow) (a : List Assignment)
    (now : Nat) (cams : List CameraData) (st : SyncState) (q v : String)
    (hnone : ∀ c ∈ cams, uuidOf c = some q → c.streamer_hr_name = none)
    (hpres : st.rows.any (fun s => s.streamer_uuid = q) = true)
    (hv : ∀ r ∈ st.rows, r.streamer_uuid = q → r.streamer_hr_name = v) :
    ∀ r ∈ (sync_cameras unit a now cams st).rows, r.streamer_uuid = q →
      r.streamer_hr_name = v :=
  (sync_name unit a now q v cams st hnone hpres hv).2

/-- Closed instance of the amended C5: an inventory omitting the name field
leaves the persisted display name untouched on the concrete synced row. -/
theorem C5_name_guard_amended_witness :
    (apply_camera_update cu0 [] 7 camNoName "cam-1" sr1).streamer_hr_name =
      "Cam One" ∧
    apply_camera_update cu0 [] 7 camNoName "cam-1" sr1 ∈
      (sync_cameras cu0 [] 7 [camNoName] ⟨[sr1], 20⟩).rows := by
  refine ⟨?_, by decide⟩
  exact C5_name_guard_amended cu0 [] 7 [camNoName] ⟨[sr1], 20⟩ "cam-1" "Cam One"
    (by decide) (by decide) (by decide) _ (by decide) (by decide)

/-- Claim C10: the streamer upserted for an inventory entry gets status
`active` exactly when the reported `is_alive` equals the string `1` (anything
else, including a missing field, yields `inactive`), and the `is_alive` column
stores the reported string unchanged, a missing field being stored as `0`. -/
theorem C10_liveness_status_derivation (unit : ComputeUnitRow)
    (a : List Assignment) (now : Nat) (st : SyncState)
    (p tail : List CameraData) (c : CameraData) (u : String)
    (hc : uuidOf c = some u)
    (htail : ∀ d ∈ tail, ¬ uuidOf d = some u) :
    ∃ r ∈ (sync_cameras unit a now (p ++ c :: tail) st).rows,
      r.streamer_uuid = u ∧
      r.status = (if c.is_alive = some "1" then "active" else "inactive") ∧
      r.is_alive = c.is_alive.getD "0" := by
  rw [sync_cameras_append, sync_cameras_cons]
  obtain ⟨r, hr, hru, hst, hal⟩ := sync_one_hit unit a now
    (sync_cameras unit a now p st) c u hc
  refine ⟨r, ?_, hru, hst, hal⟩
  exact sync_mem_preserve unit a now tail _ r hr
    (by intro d hd; rw [hru]; exact htail d hd)

/-- Closed instances of C10: a missing liveness field yields an inactive row
storing the string zero, and the string `true` also yields inactive while
being stored unchanged. -/
theorem C10_liveness_status_derivation_witness :
    (∃ r ∈ (sync_cameras cu0 [] 7 ([] ++ camMissingAlive :: []) ⟨[], 1⟩).rows,
      r.streamer_uuid = "cam-7" ∧ r.status = "inactive" ∧ r.is_alive = "0") ∧
    (∃ r ∈ (sync_cameras cu0 [] 7 ([] ++ camTrueAlive :: []) ⟨[], 1⟩).rows,
      r.streamer_uuid = "cam-8" ∧ r.status = "inactive" ∧
        r.is_alive = "true") := by
  constructor
  · have h := C10_liveness_status_derivation cu0 [] 7 ⟨[], 1⟩ [] []
      camMissingAlive "cam-7" (by decide) (by intro d hd; simp at hd)
    simpa [camMissingAlive] using h
  · have h := C10_liveness_status_derivation cu0 [] 7 ⟨[], 1⟩ [] []
      camTrueAlive "cam-8" (by decide) (by intro d hd; simp at hd)
    simpa [camTrueAlive] using h

end VirtueDashboard
